import Mathlib

/-!
A shallow embedding of the tl_controller microscope bridge.

The program (src/index.ts, src/commands.ts, src/store.ts) accepts text
commands over TCP and drives a serial light-source controller.  We model
the mutable globals of the process — the open-port flag, the session
store, the FIFO of pending device response lines, and (for reasoning) the
trace of lines written to the device — as one explicit record `Sys`
threaded through every operation.  Device writes that throw in the
JavaScript source (write to a closed port, response timeout) are modelled
with `Except`; echo mismatches are ordinary `ERROR` results, as in the
source.  JavaScript string primitives used by the command parser
(`trim`, `split(" ")`, `Number.parseInt(x, 10)`) are modelled over
`List Char` with their JavaScript semantics.
-/

namespace TLC

/-- Response type of commands.ts: the string union of "OK" and "ERROR". -/
inductive Response where
  | OK
  | ERROR
deriving DecidableEq, Repr

/-- State record of store.ts. -/
structure SessionState where
  shutterOpen : Bool
  intensity : Int
deriving DecidableEq, Repr

/-- Command union of commands.ts. -/
inductive Command where
  | INITIALIZE
  | SHUTDOWN
  | TL_INTENSITY (level : Int)
  | SHUTTER_OPEN (state : Bool)
deriving DecidableEq, Repr

/-- The process-wide mutable resources of index.ts and store.ts:
`port` is whether `_port` is non-null, `state` is the field `_state` of the store,
`pending` is `_responseQueue` (device response lines not yet consumed),
and `sent` is the trace of messages written to the serial port, oldest
first (observational; the source only logs them). -/
structure Sys where
  port : Bool
  state : SessionState
  pending : List String
  sent : List String
deriving DecidableEq, Repr

/-- Process start: port closed, store at its default value. -/
def Sys.initial : Sys :=
  { port := false
    state := { shutterOpen := false, intensity := 0 }
    pending := []
    sent := [] }

/-- store.ts getState: an immutable snapshot of the state. -/
def Store.getState (s : Sys) : SessionState := s.state

/-- store.ts setShutter: replace the shutterOpen field. -/
def Store.setShutter (s : Sys) (state : Bool) : Sys :=
  { s with state := { s.state with shutterOpen := state } }

/-- store.ts setIntensity: replace the intensity field. -/
def Store.setIntensity (s : Sys) (level : Int) : Sys :=
  { s with state := { s.state with intensity := level } }

/-- Errors thrown (as JavaScript exceptions) by writeToPort: writing to an
uninitialized port, or a response timeout from waitForResponse. -/
inductive WriteErr where
  | portClosed
  | timeout
deriving DecidableEq, Repr

/-- index.ts writeToPort: throws if the port is null; otherwise writes the
message, then waits for one response line (timeout if none arrives).  The
message is transmitted before the wait, so it is appended to `sent` even
on the timeout path. -/
def writeToPort (s : Sys) (message : String) : Except WriteErr String × Sys :=
  if s.port = false then (.error .portClosed, s)
  else
    let s1 := { s with sent := s.sent ++ [message] }
    match s1.pending with
    | [] => (.error .timeout, s1)
    | response :: rest => (.ok response, { s1 with pending := rest })

/-- index.ts syncMicroscopeToState: reads the store and issues exactly one
exchange — the stored intensity if the shutter is open, device intensity 0
otherwise — expecting the echo "77020". -/
def syncMicroscopeToState (s : Sys) : Except WriteErr Response × Sys :=
  let state := Store.getState s
  if state.shutterOpen then
    match writeToPort s ("77020 " ++ toString state.intensity ++ " 0") with
    | (.error e, s1) => (.error e, s1)
    | (.ok resp, s1) =>
      if resp ≠ "77020" then (.ok .ERROR, s1) else (.ok .OK, s1)
  else
    match writeToPort s "77020 0 0" with
    | (.error e, s1) => (.error e, s1)
    | (.ok resp, s1) =>
      if resp ≠ "77020" then (.ok .ERROR, s1) else (.ok .OK, s1)

/-- The conditional port opening at the top of index.ts initialize: if
`_port` is null, construct the serial transport. -/
def ensurePortOpen (s : Sys) : Sys :=
  if s.port then s else { s with port := true }

/-- index.ts initialize: opens the port if closed, then four exchanges in
order — lamp select, manual control off, intensity 0, shutter open — each
aborting with ERROR on an echo mismatch; on success falls through to
syncMicroscopeToState. -/
def initializeMicroscope (s0 : Sys) : Except WriteErr Response × Sys :=
  match writeToPort (ensurePortOpen s0) "77025 0" with
  | (.error e, s1) => (.error e, s1)
  | (.ok response, s1) =>
    if response ≠ "77025" then (.ok .ERROR, s1)
    else
      match writeToPort s1 "77005 0" with
      | (.error e, s2) => (.error e, s2)
      | (.ok manualResponse, s2) =>
        if manualResponse ≠ "77005" then (.ok .ERROR, s2)
        else
          match writeToPort s2 "77020 0 0" with
          | (.error e, s3) => (.error e, s3)
          | (.ok intensityResp, s3) =>
            if intensityResp ≠ "77020" then (.ok .ERROR, s3)
            else
              match writeToPort s3 "77032 0 1" with
              | (.error e, s4) => (.error e, s4)
              | (.ok shutterResp, s4) =>
                if shutterResp ≠ "77032" then (.ok .ERROR, s4)
                else syncMicroscopeToState s4

/-- index.ts shutdown: if the port is open, one exchange re-enabling manual
control; an echo mismatch returns ERROR without releasing the port.  Only
after the exchange succeeds (or if the port was already closed) is `_port`
set to null. -/
def shutdown (s : Sys) : Except WriteErr Response × Sys :=
  if s.port then
    match writeToPort s "77005 1" with
    | (.error e, s1) => (.error e, s1)
    | (.ok manualResponse, s1) =>
      if manualResponse ≠ "77005" then (.ok .ERROR, s1)
      else (.ok .OK, { s1 with port := false })
  else (.ok .OK, { s with port := false })

/-- index.ts setIntensity: pure store mutation, always OK. -/
def setIntensity (s : Sys) (level : Int) : Except WriteErr Response × Sys :=
  (.ok .OK, Store.setIntensity s level)

/-- index.ts setShutterState: pure store mutation, always OK. -/
def setShutterState (s : Sys) (state : Bool) : Except WriteErr Response × Sys :=
  (.ok .OK, Store.setShutter s state)

/-- The tail of executeCommand shared by all non-SHUTDOWN commands
(index.ts lines 164-165): if the primary operation threw, the exception
propagates and no sync runs; otherwise run syncMicroscopeToState and
return ERROR if the sync failed, else the primary result. -/
def finishWithSync : Except WriteErr Response × Sys → Except WriteErr Response × Sys
  | (.error e, s1) => (.error e, s1)
  | (.ok result, s1) =>
    match syncMicroscopeToState s1 with
    | (.error e, s2) => (.error e, s2)
    | (.ok syncResult, s2) =>
      (.ok (if syncResult = Response.ERROR then syncResult else result), s2)

/-- index.ts executeCommand: dispatch on the command tag; SHUTDOWN returns
its own result immediately, every other command falls through to the
unconditional sync. -/
def executeCommand (s : Sys) (command : Command) : Except WriteErr Response × Sys :=
  match command with
  | .SHUTDOWN => shutdown s
  | .INITIALIZE => finishWithSync (initializeMicroscope s)
  | .TL_INTENSITY level => finishWithSync (setIntensity s level)
  | .SHUTTER_OPEN st => finishWithSync (setShutterState s st)

/-- JavaScript whitespace test used by String.prototype.trim and
Number.parseInt, on the ASCII alphabet reachable through the
ascii-decoded TCP stream: tab, line feed, vertical tab, form feed,
carriage return and space.  (The Unicode-only JavaScript whitespace code
points lie above 0x7F and cannot reach the parser here.) -/
def isJsWhitespace (c : Char) : Bool :=
  c = '\t' || c = '\n' || c = '\x0b' || c = '\x0c' || c = '\r' || c = ' '

/-- JavaScript String.prototype.trim: drop whitespace from both ends. -/
def jsTrim (l : List Char) : List Char :=
  ((l.dropWhile isJsWhitespace).reverse.dropWhile isJsWhitespace).reverse

/-- JavaScript String.prototype.split with a single-character separator:
fields between separators, empty fields preserved; the empty string splits
to one empty field. -/
def splitOnChar (sep : Char) : List Char → List (List Char)
  | [] => [[]]
  | c :: rest =>
    if c = sep then [] :: splitOnChar sep rest
    else
      match splitOnChar sep rest with
      | [] => [[c]]
      | f :: fs => (c :: f) :: fs

/-- Value of a run of decimal digit characters, most significant first. -/
def digitsVal (ds : List Char) : Nat :=
  ds.foldl (fun a c => 10 * a + (c.toNat - 48)) 0

/-- Longest leading run of decimal digits, or none if there is no digit:
the digit-consuming core of JavaScript parseInt with radix 10 (characters
after the run are ignored). -/
def parseDigits (l : List Char) : Option Nat :=
  let ds := l.takeWhile Char.isDigit
  if ds = [] then none else some (digitsVal ds)

/-- JavaScript Number.parseInt(x, 10): skip leading whitespace, consume an
optional sign, then the longest run of decimal digits; none models NaN. -/
def jsParseInt10 (l : List Char) : Option Int :=
  let t := l.dropWhile isJsWhitespace
  if t.head? = some '-' then (parseDigits t.tail).map (fun n => -(n : Int))
  else if t.head? = some '+' then (parseDigits t.tail).map (fun n => (n : Int))
  else (parseDigits t).map (fun n => (n : Int))

/-- index.ts parseCommand: reject lines not ending in a line feed; trim,
split on spaces, dispatch on the first token; TL_INTENSITY requires one
argument parsing to an integer in 0..255, SHUTTER_OPEN one argument that
is literally "0" or "1".  `none` models the "ERROR" return. -/
def parseCommand (textCommand : List Char) : Option Command :=
  if textCommand.getLast? ≠ some '\n' then none
  else
    match splitOnChar ' ' (jsTrim textCommand) with
    | [] => none
    | cmdName :: args =>
      if cmdName = "SHUTDOWN".toList then some .SHUTDOWN
      else if cmdName = "INITIALIZE".toList then some .INITIALIZE
      else if cmdName = "TL_INTENSITY".toList then
        match args with
        | [a] =>
          match jsParseInt10 a with
          | none => none
          | some intensity =>
            if intensity < 0 ∨ intensity > 255 then none
            else some (.TL_INTENSITY intensity)
        | _ => none
      else if cmdName = "SHUTTER_OPEN".toList then
        match args with
        | [a] =>
          if a = ['0'] then some (.SHUTTER_OPEN false)
          else if a = ['1'] then some (.SHUTTER_OPEN true)
          else none
        | _ => none
      else none

/-- index.ts handleRequest: parse then execute; a parse failure answers
ERROR without touching the device or the store. -/
def handleRequest (s : Sys) (data : List Char) : Except WriteErr Response × Sys :=
  match parseCommand data with
  | none => (.ok .ERROR, s)
  | some c => executeCommand s c

/-- States of the process reachable through the public interface: the
initial state, handling any request line, or the serial listener
enqueueing a device response line. -/
inductive Reachable : Sys → Prop where
  | init : Reachable Sys.initial
  | step (s : Sys) (input : List Char) :
      Reachable s → Reachable (handleRequest s input).2
  | deviceLine (s : Sys) (line : String) :
      Reachable s → Reachable { s with pending := s.pending ++ [line] }

/-- Poll interval of waitForResponse (index.ts default interval_ms). -/
def pollInterval : Nat := 10

/-- index.ts waitForResponse, with time made explicit: `tick` counts polls
since the call, `enq t` is the list of lines the serial listener enqueued
during the t-th poll interval (the queue is checked before the budget).
A non-empty queue returns its head at once; otherwise, when the budget is
exhausted, the timeout error is thrown, else one interval elapses and the
wait recurses on the decremented budget.  Returns the line and the rest of
the queue, or none for the timeout. -/
def waitForResponse (enq : Nat → List String) (tick : Nat)
    (queue : List String) (maxWait : Nat) : Option (String × List String) :=
  match queue with
  | r :: rest => some (r, rest)
  | [] =>
    if maxWait = 0 then none
    else waitForResponse enq (tick + 1) (enq (tick + 1)) (maxWait - pollInterval)
termination_by maxWait
decreasing_by
  simp only [pollInterval]
  omega

/-- Timeout budget writeToPort passes to waitForResponse (1000 ms). -/
def defaultTimeout : Nat := 1000


/-- C1: syncMicroscopeToState issues exactly one device exchange determined
by the current SessionState — the line "77020 {intensity} 0" when
shutterOpen is true and "77020 0 0" when it is false — expecting the echo
"77020", failing on any other echo and succeeding on a match; in
particular, with the shutter closed and the stored intensity previously
set to 100, the sync sends "77020 0 0" while the stored intensity remains
100. -/
theorem sync_single_state_determined_exchange :
    (∀ (s : Sys) (r : String) (rest : List String),
      s.port = true → s.pending = r :: rest →
      syncMicroscopeToState s =
        (.ok (if r = "77020" then Response.OK else Response.ERROR),
         { s with pending := rest,
                  sent := s.sent ++
                    [if s.state.shutterOpen
                     then "77020 " ++ toString s.state.intensity ++ " 0"
                     else "77020 0 0"] })) ∧
    (∀ (s : Sys) (rest : List String),
      s.port = true → s.pending = "77020" :: rest → s.state.intensity = 100 →
      (executeCommand s (.SHUTTER_OPEN false)).1 = .ok Response.OK ∧
      (executeCommand s (.SHUTTER_OPEN false)).2.sent = s.sent ++ ["77020 0 0"] ∧
      (executeCommand s (.SHUTTER_OPEN false)).2.state.intensity = 100) := by
  constructor
  · rintro ⟨p, ⟨b, i⟩, pend, snt⟩ r rest hport hp
    dsimp only at hport hp
    subst hport hp
    by_cases hr : r = "77020" <;>
      cases b <;>
        simp [syncMicroscopeToState, Store.getState, writeToPort, hr]
  · rintro ⟨p, ⟨b, i⟩, pend, snt⟩ rest hport hp hi
    dsimp only at hport hp hi
    subst hport hp hi
    simp [executeCommand, finishWithSync, setShutterState, Store.setShutter,
      syncMicroscopeToState, Store.getState, writeToPort]

/-- Witness for C1 at a concrete system: shutter closed, intensity 100,
device echoing "77020". -/
theorem sync_single_state_determined_exchange_witness :
    syncMicroscopeToState
        { port := true, state := { shutterOpen := false, intensity := 100 },
          pending := ["77020"], sent := [] } =
      (.ok Response.OK,
        { port := true, state := { shutterOpen := false, intensity := 100 },
          pending := [], sent := ["77020 0 0"] }) := by
  have h := sync_single_state_determined_exchange.1
    { port := true, state := { shutterOpen := false, intensity := 100 },
      pending := ["77020"], sent := [] } "77020" [] rfl rfl
  simpa using h

/-- C3: initializeMicroscope performs, strictly in this order, the four
exchanges "77025 0" (expect "77025"), "77005 0" (expect "77005"),
"77020 0 0" (expect "77020"), "77032 0 1" (expect "77032"); the first echo
mismatch aborts the sequence (no later exchange is sent) and yields ERROR,
and only when all four echoes match does control pass to
syncMicroscopeToState on the current state. -/
theorem initialize_four_ordered_exchanges_abort_on_mismatch :
    ∀ (s : Sys) (r1 r2 r3 r4 : String) (rest : List String),
      s.pending = r1 :: r2 :: r3 :: r4 :: rest →
      ((r1 ≠ "77025" →
        initializeMicroscope s =
          (.ok Response.ERROR,
           { s with port := true, pending := r2 :: r3 :: r4 :: rest,
                    sent := s.sent ++ ["77025 0"] })) ∧
       (r1 = "77025" → r2 ≠ "77005" →
        initializeMicroscope s =
          (.ok Response.ERROR,
           { s with port := true, pending := r3 :: r4 :: rest,
                    sent := s.sent ++ ["77025 0", "77005 0"] })) ∧
       (r1 = "77025" → r2 = "77005" → r3 ≠ "77020" →
        initializeMicroscope s =
          (.ok Response.ERROR,
           { s with port := true, pending := r4 :: rest,
                    sent := s.sent ++ ["77025 0", "77005 0", "77020 0 0"] })) ∧
       (r1 = "77025" → r2 = "77005" → r3 = "77020" → r4 ≠ "77032" →
        initializeMicroscope s =
          (.ok Response.ERROR,
           { s with port := true, pending := rest,
                    sent := s.sent ++
                      ["77025 0", "77005 0", "77020 0 0", "77032 0 1"] })) ∧
       (r1 = "77025" → r2 = "77005" → r3 = "77020" → r4 = "77032" →
        initializeMicroscope s =
          syncMicroscopeToState
            { s with port := true, pending := rest,
                     sent := s.sent ++
                       ["77025 0", "77005 0", "77020 0 0", "77032 0 1"] })) := by
  rintro ⟨p, st, pend, snt⟩ r1 r2 r3 r4 rest hp
  dsimp only at hp
  subst hp
  refine ⟨?_, ?_, ?_, ?_, ?_⟩
  · intro h1
    cases p <;> simp [initializeMicroscope, ensurePortOpen, writeToPort, h1]
  · intro h1 h2
    subst h1
    cases p <;> simp [initializeMicroscope, ensurePortOpen, writeToPort, h2]
  · intro h1 h2 h3
    subst h1; subst h2
    cases p <;> simp [initializeMicroscope, ensurePortOpen, writeToPort, h3]
  · intro h1 h2 h3 h4
    subst h1; subst h2; subst h3
    cases p <;> simp [initializeMicroscope, ensurePortOpen, writeToPort, h4]
  · intro h1 h2 h3 h4
    subst h1; subst h2; subst h3; subst h4
    cases p <;> simp [initializeMicroscope, ensurePortOpen, writeToPort]

/-- Witness for C3: from the closed initial system, with the device echoing
all four setup codes and then the sync echo, initialize succeeds having
sent the four setup lines and the sync line. -/
theorem initialize_four_ordered_exchanges_abort_on_mismatch_witness :
    initializeMicroscope
        { port := false, state := { shutterOpen := false, intensity := 0 },
          pending := ["77025", "77005", "77020", "77032", "77020"],
          sent := [] } =
      (.ok Response.OK,
        { port := true, state := { shutterOpen := false, intensity := 0 },
          pending := [],
          sent := ["77025 0", "77005 0", "77020 0 0", "77032 0 1",
                   "77020 0 0"] }) := by
  have h := (initialize_four_ordered_exchanges_abort_on_mismatch
    { port := false, state := { shutterOpen := false, intensity := 0 },
      pending := ["77025", "77005", "77020", "77032", "77020"], sent := [] }
    "77025" "77005" "77020" "77032" ["77020"] rfl).2.2.2.2 rfl rfl rfl rfl
  rw [h]
  rfl

/-- C10: a successful INITIALIZE command sends the sync exchange twice —
once by initialize itself after its four setup exchanges and once more by
the unconditional post-command sync of the executor — six device exchanges in
total. -/
theorem initialize_command_sends_sync_twice :
    ∀ (s : Sys) (rest : List String),
      s.pending =
        ["77025", "77005", "77020", "77032", "77020", "77020"] ++ rest →
      executeCommand s .INITIALIZE =
        (.ok Response.OK,
         { s with port := true, pending := rest,
                  sent := s.sent ++
                    ["77025 0", "77005 0", "77020 0 0", "77032 0 1",
                     (if s.state.shutterOpen
                      then "77020 " ++ toString s.state.intensity ++ " 0"
                      else "77020 0 0"),
                     (if s.state.shutterOpen
                      then "77020 " ++ toString s.state.intensity ++ " 0"
                      else "77020 0 0")] }) := by
  rintro ⟨p, ⟨b, i⟩, pend, snt⟩ rest hp
  dsimp only at hp
  subst hp
  cases p <;> cases b <;>
    simp [executeCommand, finishWithSync, initializeMicroscope, ensurePortOpen,
      syncMicroscopeToState, Store.getState, writeToPort]

/-- Witness for C10: six echoes from the initial (closed-shutter) state
produce OK with six sent exchanges, the last two identical sync lines. -/
theorem initialize_command_sends_sync_twice_witness :
    executeCommand
        { port := false, state := { shutterOpen := false, intensity := 0 },
          pending := ["77025", "77005", "77020", "77032", "77020", "77020"],
          sent := [] } .INITIALIZE =
      (.ok Response.OK,
        { port := true, state := { shutterOpen := false, intensity := 0 },
          pending := [],
          sent := ["77025 0", "77005 0", "77020 0 0", "77032 0 1",
                   "77020 0 0", "77020 0 0"] }) := by
  have h := initialize_command_sends_sync_twice
    { port := false, state := { shutterOpen := false, intensity := 0 },
      pending := ["77025", "77005", "77020", "77032", "77020", "77020"],
      sent := [] } [] rfl
  simpa using h

/-- C6: shutdown, when the port is open, sends exactly one exchange
"77005 1" expecting echo "77005" and fails on any other echo; the port
handle is released only on the success path, not on the echo-mismatch
path; and shutdown never performs a sync exchange (at most the single
"77005 1" line is ever sent, and the executor returns the shutdown result
directly). -/
theorem shutdown_releases_port_only_on_success :
    (∀ (s : Sys) (r : String) (rest : List String),
      s.port = true → s.pending = r :: rest →
      shutdown s =
        (.ok (if r = "77005" then Response.OK else Response.ERROR),
         if r = "77005" then
           { s with port := false, pending := rest,
                    sent := s.sent ++ ["77005 1"] }
         else
           { s with pending := rest, sent := s.sent ++ ["77005 1"] })) ∧
    (∀ s : Sys, executeCommand s .SHUTDOWN = shutdown s) ∧
    (∀ s : Sys, (shutdown s).2.sent = s.sent ∨
      (shutdown s).2.sent = s.sent ++ ["77005 1"]) := by
  refine ⟨?_, fun s => rfl, ?_⟩
  · rintro ⟨p, st, pend, snt⟩ r rest hport hp
    dsimp only at hport hp
    subst hport hp
    by_cases hr : r = "77005" <;> simp [shutdown, writeToPort, hr]
  · rintro ⟨p, st, pend, snt⟩
    cases p <;> cases pend <;> simp [shutdown, writeToPort] <;>
      try (right; split <;> rfl)

/-- Witness for C6: an echo mismatch answers ERROR and keeps the port
handle; a matching echo answers OK and releases it. -/
theorem shutdown_releases_port_only_on_success_witness :
    shutdown
        { port := true, state := { shutterOpen := false, intensity := 0 },
          pending := ["garbage"], sent := [] } =
      (.ok Response.ERROR,
        { port := true, state := { shutterOpen := false, intensity := 0 },
          pending := [], sent := ["77005 1"] }) ∧
    shutdown
        { port := true, state := { shutterOpen := false, intensity := 0 },
          pending := ["77005"], sent := [] } =
      (.ok Response.OK,
        { port := false, state := { shutterOpen := false, intensity := 0 },
          pending := [], sent := ["77005 1"] }) := by
  constructor
  · have h := shutdown_releases_port_only_on_success.1
      { port := true, state := { shutterOpen := false, intensity := 0 },
        pending := ["garbage"], sent := [] } "garbage" [] rfl rfl
    simpa using h
  · have h := shutdown_releases_port_only_on_success.1
      { port := true, state := { shutterOpen := false, intensity := 0 },
        pending := ["77005"], sent := [] } "77005" [] rfl rfl
    simpa using h

/-- C5: when the sync exchange fails (echo mismatch) after a TL_INTENSITY
or SHUTTER_OPEN command has already mutated the store, the command returns
ERROR but the store retains the mutated value — no rollback. -/
theorem failed_sync_does_not_roll_back_store :
    ∀ (s : Sys) (r : String) (rest : List String) (level : Int) (b : Bool),
      s.port = true → s.pending = r :: rest → r ≠ "77020" →
      (executeCommand s (.TL_INTENSITY level)).1 = .ok Response.ERROR ∧
      (executeCommand s (.TL_INTENSITY level)).2.state =
        { s.state with intensity := level } ∧
      (executeCommand s (.SHUTTER_OPEN b)).1 = .ok Response.ERROR ∧
      (executeCommand s (.SHUTTER_OPEN b)).2.state =
        { s.state with shutterOpen := b } := by
  rintro ⟨p, ⟨b0, i⟩, pend, snt⟩ r rest level b hport hp hr
  dsimp only at hport hp
  subst hport hp
  cases b0 <;> cases b <;>
    simp [executeCommand, finishWithSync, setIntensity, setShutterState,
      Store.setIntensity, Store.setShutter, syncMicroscopeToState,
      Store.getState, writeToPort, hr]

/-- Witness for C5: a wrong sync echo after TL_INTENSITY 42 yields ERROR
with the stored intensity still 42 (and after SHUTTER_OPEN 1, the stored
flag still true). -/
theorem failed_sync_does_not_roll_back_store_witness :
    (executeCommand
        { port := true, state := { shutterOpen := false, intensity := 0 },
          pending := ["nope"], sent := [] } (.TL_INTENSITY 42)).1 =
      .ok Response.ERROR ∧
    (executeCommand
        { port := true, state := { shutterOpen := false, intensity := 0 },
          pending := ["nope"], sent := [] } (.TL_INTENSITY 42)).2.state =
      { shutterOpen := false, intensity := 42 } ∧
    (executeCommand
        { port := true, state := { shutterOpen := false, intensity := 0 },
          pending := ["nope"], sent := [] } (.SHUTTER_OPEN true)).1 =
      .ok Response.ERROR ∧
    (executeCommand
        { port := true, state := { shutterOpen := false, intensity := 0 },
          pending := ["nope"], sent := [] } (.SHUTTER_OPEN true)).2.state =
      { shutterOpen := true, intensity := 0 } := by
  have h := failed_sync_does_not_roll_back_store
    { port := true, state := { shutterOpen := false, intensity := 0 },
      pending := ["nope"], sent := [] } "nope" [] 42 true rfl rfl
    (by decide)
  simpa using h

/-- C2: the executor dispatches each parsed command to its matching
operation; SHUTDOWN returns the result of its operation immediately without
running the sync (at most its own "77005 1" line is sent), while
INITIALIZE, TL_INTENSITY and SHUTTER_OPEN always run syncMicroscopeToState
afterward regardless of the primary result (shown concretely for an
INITIALIZE whose first exchange already failed), and the final result is
ERROR if either the primary operation or the sync failed, else the
own result of the primary operation. -/
theorem executor_dispatch_and_unconditional_sync :
    (∀ s : Sys, executeCommand s .SHUTDOWN = shutdown s ∧
      ((executeCommand s .SHUTDOWN).2.sent = s.sent ∨
       (executeCommand s .SHUTDOWN).2.sent = s.sent ++ ["77005 1"])) ∧
    (∀ (s : Sys) (level : Int),
      executeCommand s (.TL_INTENSITY level) =
        finishWithSync (setIntensity s level)) ∧
    (∀ (s : Sys) (b : Bool),
      executeCommand s (.SHUTTER_OPEN b) =
        finishWithSync (setShutterState s b)) ∧
    (∀ s : Sys,
      executeCommand s .INITIALIZE =
        finishWithSync (initializeMicroscope s)) ∧
    (∀ (result syncResult : Response) (s1 s2 : Sys),
      syncMicroscopeToState s1 = (.ok syncResult, s2) →
      finishWithSync (.ok result, s1) =
        (.ok (if syncResult = Response.ERROR then Response.ERROR else result),
         s2)) ∧
    (∀ (s : Sys) (r1 q : String) (rest : List String),
      s.port = true → s.pending = r1 :: q :: rest →
      s.state.shutterOpen = false → r1 ≠ "77025" →
      (executeCommand s .INITIALIZE).1 = .ok Response.ERROR ∧
      (executeCommand s .INITIALIZE).2.sent =
        s.sent ++ ["77025 0", "77020 0 0"]) := by
  refine ⟨?_, fun s level => rfl, fun s b => rfl, fun s => rfl, ?_, ?_⟩
  · intro s
    refine ⟨rfl, ?_⟩
    exact shutdown_releases_port_only_on_success.2.2 s
  · intro result syncResult s1 s2 hsync
    simp [finishWithSync, hsync]
    rcases syncResult <;> simp
  · rintro ⟨p, ⟨b, i⟩, pend, snt⟩ r1 q rest hport hp hb h1
    dsimp only at hport hp hb
    subst hport hp hb
    by_cases hq : q = "77020" <;>
      simp [executeCommand, finishWithSync, initializeMicroscope, ensurePortOpen,
        syncMicroscopeToState, Store.getState, writeToPort, h1, hq]

/-- splitOnChar of a list that contains no separator is one field. -/
theorem splitOnChar_not_mem (sep : Char) (l : List Char) (h : sep ∉ l) :
    splitOnChar sep l = [l] := by
  induction l with
  | nil => rfl
  | cons c rest ih =>
    simp only [List.mem_cons, not_or] at h
    have hc : ¬ (c = sep) := fun hh => h.1 hh.symm
    simp [splitOnChar, hc, ih h.2]

/-- splitOnChar across the first separator: the separator-free head becomes
the first field. -/
theorem splitOnChar_append_sep (sep : Char) (l r : List Char) (h : sep ∉ l) :
    splitOnChar sep (l ++ sep :: r) = l :: splitOnChar sep r := by
  induction l with
  | nil => simp [splitOnChar]
  | cons c rest ih =>
    simp only [List.mem_cons, not_or] at h
    have hc : ¬ (c = sep) := fun hh => h.1 hh.symm
    simp [splitOnChar, hc, ih h.2]

/-- jsTrim strips exactly the trailing line feed when the rest of the line
has no whitespace at either edge. -/
theorem jsTrim_append_newline (l : List Char) (hne : l ≠ [])
    (h0 : ∀ c, l.head? = some c → isJsWhitespace c = false)
    (h1 : ∀ c, l.getLast? = some c → isJsWhitespace c = false) :
    jsTrim (l ++ ['\n']) = l := by
  obtain ⟨c0, t, rfl⟩ := List.exists_cons_of_ne_nil hne
  have hc0 : isJsWhitespace c0 = false := h0 c0 rfl
  have hrevne : (c0 :: t).reverse ≠ [] := by simp
  obtain ⟨z, w, hzw⟩ := List.exists_cons_of_ne_nil hrevne
  have hz : isJsWhitespace z = false := by
    apply h1
    rw [← List.head?_reverse, hzw]
    rfl
  have hnl : isJsWhitespace '\n' = true := by decide
  unfold jsTrim
  have e1 : List.dropWhile isJsWhitespace ((c0 :: t) ++ ['\n'])
      = (c0 :: t) ++ ['\n'] := by
    rw [List.cons_append, List.dropWhile_cons]
    simp [hc0]
  rw [e1]
  have e2 : ((c0 :: t) ++ ['\n']).reverse = '\n' :: (c0 :: t).reverse := by
    simp
  rw [e2, List.dropWhile_cons, if_pos hnl, hzw, List.dropWhile_cons]
  rw [if_neg (by simp [hz]), ← hzw, List.reverse_reverse]

/-- A decimal digit character is not JavaScript whitespace. -/
theorem isDigit_not_ws (c : Char) (h : c.isDigit = true) :
    isJsWhitespace c = false := by
  unfold isJsWhitespace
  rcases eq_or_ne c '\t' with rfl | h1
  · exact absurd h (by decide)
  rcases eq_or_ne c '\n' with rfl | h2
  · exact absurd h (by decide)
  rcases eq_or_ne c '\x0b' with rfl | h3
  · exact absurd h (by decide)
  rcases eq_or_ne c '\x0c' with rfl | h4
  · exact absurd h (by decide)
  rcases eq_or_ne c '\r' with rfl | h5
  · exact absurd h (by decide)
  rcases eq_or_ne c ' ' with rfl | h6
  · exact absurd h (by decide)
  simp [h1, h2, h3, h4, h5, h6]

/-- A decimal digit character is not the space separator. -/
theorem isDigit_ne_space (c : Char) (h : c.isDigit = true) : c ≠ ' ' := by
  rintro rfl
  exact absurd h (by decide)

/-- jsParseInt10 on a nonempty all-digit argument returns exactly the value
of the digit run. -/
theorem jsParseInt10_digits (arg : List Char) (hne : arg ≠ [])
    (hd : ∀ c ∈ arg, c.isDigit = true) :
    jsParseInt10 arg = some (digitsVal arg : Int) := by
  obtain ⟨c0, t, rfl⟩ := List.exists_cons_of_ne_nil hne
  have h0 : c0.isDigit = true := hd c0 (by simp)
  have hws : isJsWhitespace c0 = false := isDigit_not_ws c0 h0
  have hminus : c0 ≠ '-' := by
    rintro rfl
    exact absurd h0 (by decide)
  have hplus : c0 ≠ '+' := by
    rintro rfl
    exact absurd h0 (by decide)
  have htake : List.takeWhile Char.isDigit (c0 :: t) = c0 :: t :=
    List.takeWhile_eq_self_iff.mpr hd
  have hdrop : List.dropWhile isJsWhitespace (c0 :: t) = c0 :: t := by
    rw [List.dropWhile_cons]
    simp [hws]
  unfold jsParseInt10
  rw [hdrop]
  simp only [List.head?_cons, Option.some.injEq]
  rw [if_neg hminus, if_neg hplus]
  unfold parseDigits
  rw [htake]
  simp

/-- takeWhile over an all-digit run followed by a tail that does not start
with a digit keeps exactly the run. -/
theorem takeWhile_digits_append (ds junk : List Char)
    (hd : ∀ c ∈ ds, c.isDigit = true)
    (hj : ∀ c, junk.head? = some c → c.isDigit = false) :
    List.takeWhile Char.isDigit (ds ++ junk) = ds := by
  induction ds with
  | nil =>
    simp only [List.nil_append]
    cases junk with
    | nil => rfl
    | cons c t =>
      rw [List.takeWhile_cons]
      simp [hj c rfl]
  | cons c t ih =>
    have hc : c.isDigit = true := hd c (by simp)
    rw [List.cons_append, List.takeWhile_cons, if_pos hc,
      ih (fun x hx => hd x (by simp [hx]))]

/-- jsParseInt10 on an argument that starts with a nonempty digit run not
extended by the rest takes exactly that run and silently ignores the
trailing characters, as JavaScript parseInt does. -/
theorem jsParseInt10_digit_prefix (ds junk : List Char) (hne : ds ≠ [])
    (hd : ∀ c ∈ ds, c.isDigit = true)
    (hj : ∀ c, junk.head? = some c → c.isDigit = false) :
    jsParseInt10 (ds ++ junk) = some (digitsVal ds : Int) := by
  obtain ⟨c0, t, rfl⟩ := List.exists_cons_of_ne_nil hne
  have h0 : c0.isDigit = true := hd c0 (by simp)
  have hws : isJsWhitespace c0 = false := isDigit_not_ws c0 h0
  have hminus : c0 ≠ '-' := by
    rintro rfl
    exact absurd h0 (by decide)
  have hplus : c0 ≠ '+' := by
    rintro rfl
    exact absurd h0 (by decide)
  have hdrop : List.dropWhile isJsWhitespace ((c0 :: t) ++ junk)
      = (c0 :: t) ++ junk := by
    rw [List.cons_append, List.dropWhile_cons]
    simp [hws]
  have htake : List.takeWhile Char.isDigit ((c0 :: t) ++ junk) = c0 :: t :=
    takeWhile_digits_append (c0 :: t) junk hd hj
  unfold jsParseInt10
  rw [hdrop, List.cons_append]
  simp only [List.head?_cons, Option.some.injEq]
  rw [if_neg hminus, if_neg hplus]
  unfold parseDigits
  rw [List.cons_append] at htake
  rw [htake]
  simp

/-- Reduction of parseCommand on a well-formed single-argument
TL_INTENSITY line: framing, trim and split leave exactly the keyword and
the argument, so parsing reduces to the parseInt analysis of the
argument. -/
theorem parseCommand_tl_line (arg : List Char) (hne : arg ≠ [])
    (hsp : ' ' ∉ arg)
    (hlast : ∀ c, arg.getLast? = some c → isJsWhitespace c = false) :
    parseCommand ("TL_INTENSITY".toList ++ ' ' :: arg ++ ['\n']) =
      (match jsParseInt10 arg with
       | none => none
       | some intensity =>
         if intensity < 0 ∨ intensity > 255 then none
         else some (.TL_INTENSITY intensity)) := by
  have hP : "TL_INTENSITY".toList
      = ['T', 'L', '_', 'I', 'N', 'T', 'E', 'N', 'S', 'I', 'T', 'Y'] := rfl
  have hmid : "TL_INTENSITY".toList ++ ' ' :: arg ≠ [] := by simp
  have hhead : ∀ c, ("TL_INTENSITY".toList ++ ' ' :: arg).head? = some c →
      isJsWhitespace c = false := by
    rw [hP]
    intro c hc
    simp only [List.cons_append, List.head?_cons, Option.some.injEq] at hc
    subst hc
    decide
  have hlast2 : ∀ c, ("TL_INTENSITY".toList ++ ' ' :: arg).getLast? = some c →
      isJsWhitespace c = false := by
    intro c hc
    rw [List.getLast?_append_of_ne_nil _ (by simp),
      show (' ' :: arg) = [' '] ++ arg from rfl,
      List.getLast?_append_of_ne_nil _ hne] at hc
    exact hlast c hc
  have htrim : jsTrim (("TL_INTENSITY".toList ++ ' ' :: arg) ++ ['\n'])
      = "TL_INTENSITY".toList ++ ' ' :: arg :=
    jsTrim_append_newline _ hmid hhead hlast2
  have hsplit : splitOnChar ' ' ("TL_INTENSITY".toList ++ ' ' :: arg)
      = ["TL_INTENSITY".toList, arg] := by
    rw [splitOnChar_append_sep _ _ _ (by rw [hP]; decide),
      splitOnChar_not_mem _ _ hsp]
  have hnl : ((("TL_INTENSITY".toList ++ ' ' :: arg) ++ ['\n']).getLast?
      = some '\n') := List.getLast?_concat _
  unfold parseCommand
  rw [hnl, htrim, hsplit]
  rw [if_neg (by simp)]
  dsimp only
  rw [if_neg (by decide), if_neg (by decide), if_pos rfl]

/-- Reduction of parseCommand on a well-formed single-argument
SHUTTER_OPEN line: parsing reduces to the literal comparison of the
argument with "0" and "1". -/
theorem parseCommand_shutter_line (arg : List Char) (hne : arg ≠ [])
    (hsp : ' ' ∉ arg)
    (hlast : ∀ c, arg.getLast? = some c → isJsWhitespace c = false) :
    parseCommand ("SHUTTER_OPEN".toList ++ ' ' :: arg ++ ['\n']) =
      (if arg = ['0'] then some (.SHUTTER_OPEN false)
       else if arg = ['1'] then some (.SHUTTER_OPEN true)
       else none) := by
  have hP : "SHUTTER_OPEN".toList
      = ['S', 'H', 'U', 'T', 'T', 'E', 'R', '_', 'O', 'P', 'E', 'N'] := rfl
  have hmid : "SHUTTER_OPEN".toList ++ ' ' :: arg ≠ [] := by simp
  have hhead : ∀ c, ("SHUTTER_OPEN".toList ++ ' ' :: arg).head? = some c →
      isJsWhitespace c = false := by
    rw [hP]
    intro c hc
    simp only [List.cons_append, List.head?_cons, Option.some.injEq] at hc
    subst hc
    decide
  have hlast2 : ∀ c, ("SHUTTER_OPEN".toList ++ ' ' :: arg).getLast? = some c →
      isJsWhitespace c = false := by
    intro c hc
    rw [List.getLast?_append_of_ne_nil _ (by simp),
      show (' ' :: arg) = [' '] ++ arg from rfl,
      List.getLast?_append_of_ne_nil _ hne] at hc
    exact hlast c hc
  have htrim : jsTrim (("SHUTTER_OPEN".toList ++ ' ' :: arg) ++ ['\n'])
      = "SHUTTER_OPEN".toList ++ ' ' :: arg :=
    jsTrim_append_newline _ hmid hhead hlast2
  have hsplit : splitOnChar ' ' ("SHUTTER_OPEN".toList ++ ' ' :: arg)
      = ["SHUTTER_OPEN".toList, arg] := by
    rw [splitOnChar_append_sep _ _ _ (by rw [hP]; decide),
      splitOnChar_not_mem _ _ hsp]
  have hnl : ((("SHUTTER_OPEN".toList ++ ' ' :: arg) ++ ['\n']).getLast?
      = some '\n') := List.getLast?_concat _
  unfold parseCommand
  rw [hnl, htrim, hsplit]
  rw [if_neg (by simp)]
  dsimp only
  rw [if_neg (by decide), if_neg (by decide), if_neg (by decide),
    if_pos rfl]

/-- C4 (amended): for an input line "TL_INTENSITY <arg>\n" with exactly
one argument the parser follows JavaScript parseInt semantics — an
all-digit argument whose value is at most 255 yields TL_INTENSITY with
exactly that value; more generally an argument that starts with a digit
run yields TL_INTENSITY with the value of that run, silently ignoring
any trailing non-digit characters; an argument with no leading integer
(parseInt NaN) yields ERROR; a parsed value outside 0..255 yields ERROR;
and an argument count other than one yields ERROR. -/
theorem tl_intensity_parsing :
    (∀ arg : List Char, arg ≠ [] → (∀ c ∈ arg, c.isDigit = true) →
      (digitsVal arg : Int) ≤ 255 →
      parseCommand ("TL_INTENSITY".toList ++ ' ' :: arg ++ ['\n']) =
        some (.TL_INTENSITY (digitsVal arg))) ∧
    (∀ ds junk : List Char, ds ≠ [] → (∀ c ∈ ds, c.isDigit = true) →
      (∀ c, junk.head? = some c → c.isDigit = false) → ' ' ∉ junk →
      (∀ c, (ds ++ junk).getLast? = some c → isJsWhitespace c = false) →
      (digitsVal ds : Int) ≤ 255 →
      parseCommand ("TL_INTENSITY".toList ++ ' ' :: (ds ++ junk) ++ ['\n']) =
        some (.TL_INTENSITY (digitsVal ds))) ∧
    (∀ arg : List Char, arg ≠ [] → ' ' ∉ arg →
      (∀ c, arg.getLast? = some c → isJsWhitespace c = false) →
      jsParseInt10 arg = none →
      parseCommand ("TL_INTENSITY".toList ++ ' ' :: arg ++ ['\n']) = none) ∧
    (∀ (arg : List Char) (v : Int), arg ≠ [] → ' ' ∉ arg →
      (∀ c, arg.getLast? = some c → isJsWhitespace c = false) →
      jsParseInt10 arg = some v → (v < 0 ∨ v > 255) →
      parseCommand ("TL_INTENSITY".toList ++ ' ' :: arg ++ ['\n']) = none) ∧
    parseCommand "TL_INTENSITY\n".toList = none ∧
    parseCommand "TL_INTENSITY 1 2\n".toList = none := by
  refine ⟨?_, ?_, ?_, ?_, by decide, by decide⟩
  · intro arg hne hd h255
    have hsp : ' ' ∉ arg := fun hm => absurd (hd ' ' hm) (by decide)
    have hlast : ∀ c, arg.getLast? = some c → isJsWhitespace c = false :=
      fun c hc =>
        isDigit_not_ws c (hd c (List.mem_of_mem_getLast? (Option.mem_def.mpr hc)))
    rw [parseCommand_tl_line arg hne hsp hlast, jsParseInt10_digits arg hne hd]
    dsimp only
    rw [if_neg (by omega)]
  · intro ds junk hne hd hj hsp hlast h255
    have hne2 : ds ++ junk ≠ [] := by
      cases ds with
      | nil => exact absurd rfl hne
      | cons c t => simp
    have hsp2 : ' ' ∉ ds ++ junk := by
      intro hm
      rcases List.mem_append.mp hm with hm | hm
      · exact absurd (hd ' ' hm) (by decide)
      · exact hsp hm
    rw [parseCommand_tl_line (ds ++ junk) hne2 hsp2 hlast,
      jsParseInt10_digit_prefix ds junk hne hd hj]
    dsimp only
    rw [if_neg (by omega)]
  · intro arg hne hsp hlast hparse
    rw [parseCommand_tl_line arg hne hsp hlast, hparse]
  · intro arg v hne hsp hlast hparse hout
    rw [parseCommand_tl_line arg hne hsp hlast, hparse]
    dsimp only
    rw [if_pos hout]

/-- Witness for C4 (amended): the all-digit argument "100" yields
TL_INTENSITY 100, and the argument "12abc" (digit run "12", trailing junk
"abc") yields TL_INTENSITY 12. -/
theorem tl_intensity_parsing_witness :
    parseCommand ("TL_INTENSITY".toList ++ ' ' :: ['1', '0', '0'] ++ ['\n']) =
      some (.TL_INTENSITY 100) ∧
    parseCommand ("TL_INTENSITY".toList ++ ' ' ::
        (['1', '2'] ++ ['a', 'b', 'c']) ++ ['\n']) =
      some (.TL_INTENSITY 12) := by
  constructor
  · have h := tl_intensity_parsing.1 ['1', '0', '0'] (by decide) (by decide)
      (by decide)
    rw [h]
    decide
  · have h := tl_intensity_parsing.2.1 ['1', '2'] ['a', 'b', 'c'] (by decide)
      (by decide)
      (by
        intro c hc
        simp only [List.head?_cons, Option.some.injEq] at hc
        subst hc
        decide)
      (by decide)
      (by
        intro c hc
        rw [show ((['1', '2'] ++ ['a', 'b', 'c'] : List Char)).getLast?
              = some 'c' from rfl] at hc
        simp only [Option.some.injEq] at hc
        subst hc
        decide)
      (by decide)
    rw [h]
    decide

/-- C4 counterexample: the argument "12abc" is not a valid base-10
integer, yet the parser accepts the line and yields TL_INTENSITY 12
(JavaScript parseInt takes the leading digit run and silently ignores the
rest) instead of the ERROR the claim requires. -/
theorem tl_intensity_accepts_nonnumeric_suffix :
    parseCommand "TL_INTENSITY 12abc\n".toList =
      some (.TL_INTENSITY 12) := by
  decide

/-- C8: the parser returns ERROR for every input line not ending in a
line feed; a single-argument SHUTTER_OPEN line yields state false for the
literal argument "0", state true for the literal "1" and ERROR for any
other argument; wrong argument counts are ERROR; and every line whose
first token is none of the four known keywords is ERROR. -/
theorem shutter_parsing_and_line_framing :
    (∀ input : List Char, input.getLast? ≠ some '\n' →
      parseCommand input = none) ∧
    (∀ arg : List Char, arg ≠ [] → ' ' ∉ arg →
      (∀ c, arg.getLast? = some c → isJsWhitespace c = false) →
      parseCommand ("SHUTTER_OPEN".toList ++ ' ' :: arg ++ ['\n']) =
        (if arg = ['0'] then some (.SHUTTER_OPEN false)
         else if arg = ['1'] then some (.SHUTTER_OPEN true)
         else none)) ∧
    parseCommand "SHUTTER_OPEN\n".toList = none ∧
    parseCommand "SHUTTER_OPEN 0 1\n".toList = none ∧
    (∀ (input cmdName : List Char) (args : List (List Char)),
      splitOnChar ' ' (jsTrim input) = cmdName :: args →
      cmdName ≠ "SHUTDOWN".toList → cmdName ≠ "INITIALIZE".toList →
      cmdName ≠ "TL_INTENSITY".toList → cmdName ≠ "SHUTTER_OPEN".toList →
      parseCommand input = none) := by
  refine ⟨?_, parseCommand_shutter_line, by decide, by decide, ?_⟩
  · intro input h
    unfold parseCommand
    rw [if_pos h]
  · intro input cmdName args hsplit h1 h2 h3 h4
    unfold parseCommand
    by_cases hlf : input.getLast? ≠ some '\n'
    · rw [if_pos hlf]
    · rw [if_neg hlf, hsplit]
      dsimp only
      rw [if_neg h1, if_neg h2, if_neg h3, if_neg h4]

/-- Witness for C8: argument "1" opens the shutter; a line with no
trailing line feed is rejected. -/
theorem shutter_parsing_and_line_framing_witness :
    parseCommand ("SHUTTER_OPEN".toList ++ ' ' :: ['1'] ++ ['\n']) =
      some (.SHUTTER_OPEN true) ∧
    parseCommand "SHUTDOWN".toList = none := by
  constructor
  · have h := shutter_parsing_and_line_framing.2.1 ['1'] (by decide)
      (by decide)
      (by intro c hc; simp only [List.getLast?_singleton,
            Option.some.injEq] at hc; subst hc; decide)
    rw [h]
    decide
  · exact shutter_parsing_and_line_framing.1 "SHUTDOWN".toList (by decide)

/-- Device writes never touch the session store. -/
theorem writeToPort_state (s : Sys) (m : String) :
    (writeToPort s m).2.state = s.state := by
  obtain ⟨p, st, pend, snt⟩ := s
  cases p <;> cases pend <;> simp [writeToPort]

/-- The sync exchange never touches the session store. -/
theorem syncMicroscopeToState_state (s : Sys) :
    (syncMicroscopeToState s).2.state = s.state := by
  obtain ⟨p, ⟨b, i⟩, pend, snt⟩ := s
  cases p <;> cases pend <;> cases b <;>
    simp [syncMicroscopeToState, Store.getState, writeToPort] <;>
    split <;> rfl

/-- The initialization sequence never touches the session store. -/
theorem initializeMicroscope_state (s : Sys) :
    (initializeMicroscope s).2.state = s.state := by
  have hT0 : (ensurePortOpen s).state = s.state := by
    unfold ensurePortOpen
    split <;> rfl
  unfold initializeMicroscope
  rcases hw1 : writeToPort (ensurePortOpen s) "77025 0" with ⟨r1, t1⟩
  have ht1 : t1.state = s.state := by
    have h := writeToPort_state (ensurePortOpen s) "77025 0"
    rw [hw1] at h
    exact h.trans hT0
  cases r1 with
  | error e => exact ht1
  | ok resp =>
    dsimp only
    by_cases hr : resp ≠ "77025"
    · rw [if_pos hr]
      exact ht1
    · rw [if_neg hr]
      rcases hw2 : writeToPort t1 "77005 0" with ⟨r2, t2⟩
      have ht2 : t2.state = s.state := by
        have h := writeToPort_state t1 "77005 0"
        rw [hw2] at h
        exact h.trans ht1
      cases r2 with
      | error e => exact ht2
      | ok resp2 =>
        dsimp only
        by_cases hr2 : resp2 ≠ "77005"
        · rw [if_pos hr2]
          exact ht2
        · rw [if_neg hr2]
          rcases hw3 : writeToPort t2 "77020 0 0" with ⟨r3, t3⟩
          have ht3 : t3.state = s.state := by
            have h := writeToPort_state t2 "77020 0 0"
            rw [hw3] at h
            exact h.trans ht2
          cases r3 with
          | error e => exact ht3
          | ok resp3 =>
            dsimp only
            by_cases hr3 : resp3 ≠ "77020"
            · rw [if_pos hr3]
              exact ht3
            · rw [if_neg hr3]
              rcases hw4 : writeToPort t3 "77032 0 1" with ⟨r4, t4⟩
              have ht4 : t4.state = s.state := by
                have h := writeToPort_state t3 "77032 0 1"
                rw [hw4] at h
                exact h.trans ht3
              cases r4 with
              | error e => exact ht4
              | ok resp4 =>
                dsimp only
                by_cases hr4 : resp4 ≠ "77032"
                · rw [if_pos hr4]
                  exact ht4
                · rw [if_neg hr4]
                  exact (syncMicroscopeToState_state t4).trans ht4

/-- The shutdown exchange never touches the session store. -/
theorem shutdown_state (s : Sys) : (shutdown s).2.state = s.state := by
  obtain ⟨p, st, pend, snt⟩ := s
  cases p <;> cases pend <;>
    simp [shutdown, writeToPort] <;>
    split <;> rfl

/-- The mandatory post-command sync preserves the store of its input. -/
theorem finishWithSync_state (pr : Except WriteErr Response × Sys) :
    (finishWithSync pr).2.state = pr.2.state := by
  rcases pr with ⟨r, s1⟩
  cases r
  · rfl
  · dsimp [finishWithSync]
    rcases hs : syncMicroscopeToState s1 with ⟨r2, s2⟩
    have h2 := syncMicroscopeToState_state s1
    rw [hs] at h2
    cases r2 <;> dsimp <;> exact h2

/-- Effect of one command on the session store: TL_INTENSITY writes its
level, SHUTTER_OPEN writes its flag, everything else leaves it alone. -/
theorem executeCommand_state_effect (s : Sys) (c : Command) :
    (executeCommand s c).2.state =
      (match c with
       | .TL_INTENSITY level => { s.state with intensity := level }
       | .SHUTTER_OPEN b => { s.state with shutterOpen := b }
       | _ => s.state) := by
  cases c with
  | INITIALIZE =>
    show (finishWithSync (initializeMicroscope s)).2.state = s.state
    rw [finishWithSync_state, initializeMicroscope_state]
  | SHUTDOWN =>
    show (shutdown s).2.state = s.state
    rw [shutdown_state]
  | TL_INTENSITY level =>
    show (finishWithSync (setIntensity s level)).2.state = _
    rw [finishWithSync_state]
    rfl
  | SHUTTER_OPEN b =>
    show (finishWithSync (setShutterState s b)).2.state = _
    rw [finishWithSync_state]
    rfl

/-- A successfully parsed TL_INTENSITY command always carries a level in
0..255: the parser checks the range before producing the command. -/
theorem parse_intensity_in_range :
    ∀ (input : List Char) (l : Int),
      parseCommand input = some (.TL_INTENSITY l) → 0 ≤ l ∧ l ≤ 255 := by
  intro input l h
  unfold parseCommand at h
  repeat' split at h
  all_goals simp_all

/-- C7: the session store starts as shutterOpen false and intensity 0, and
in every state reachable through the public command interface the stored
intensity is in 0..255, because the parser validates the range before any
mutation and the store setters perform no validation of their own. -/
theorem session_state_intensity_invariant :
    Sys.initial.state = { shutterOpen := false, intensity := 0 } ∧
    ∀ s : Sys, Reachable s →
      0 ≤ s.state.intensity ∧ s.state.intensity ≤ 255 := by
  refine ⟨rfl, ?_⟩
  intro s h
  induction h with
  | init => exact ⟨by decide, by decide⟩
  | step s input hr ih =>
    unfold handleRequest
    cases hp : parseCommand input with
    | none => exact ih
    | some c =>
      rw [executeCommand_state_effect]
      cases c with
      | TL_INTENSITY level =>
        exact parse_intensity_in_range input level hp
      | INITIALIZE => exact ih
      | SHUTDOWN => exact ih
      | SHUTTER_OPEN b => exact ih
  | deviceLine s line hr ih => exact ih

/-- Witness for C7 at the initial state. -/
theorem session_state_intensity_invariant_witness :
    0 ≤ Sys.initial.state.intensity ∧ Sys.initial.state.intensity ≤ 255 :=
  session_state_intensity_invariant.2 Sys.initial Reachable.init

/-- A non-empty queue is served immediately. -/
theorem wait_cons (enq : Nat → List String) (tick : Nat) (r : String)
    (rest : List String) (maxWait : Nat) :
    waitForResponse enq tick (r :: rest) maxWait = some (r, rest) := by
  rw [waitForResponse]

/-- An empty queue with the budget exhausted is a timeout. -/
theorem wait_nil_zero (enq : Nat → List String) (tick : Nat) :
    waitForResponse enq tick [] 0 = none := by
  rw [waitForResponse]
  simp

/-- An empty queue with budget left waits one interval and retries on the
decremented budget. -/
theorem wait_nil (enq : Nat → List String) (tick maxWait : Nat)
    (h : maxWait ≠ 0) :
    waitForResponse enq tick [] maxWait =
      waitForResponse enq (tick + 1) (enq (tick + 1))
        (maxWait - pollInterval) := by
  rw [waitForResponse]
  simp [h]

/-- Starting from an empty queue with a budget of k whole poll intervals,
the wait times out exactly when the listener enqueues nothing during any
of the k intervals. -/
theorem wait_timeout_iff (enq : Nat → List String) (k : Nat) :
    ∀ tick : Nat,
      (waitForResponse enq tick [] (pollInterval * k) = none ↔
        ∀ t, tick < t → t ≤ tick + k → enq t = []) := by
  induction k with
  | zero =>
    intro tick
    constructor
    · intro _ t h1 h2
      exact absurd (lt_of_lt_of_le h1 h2) (by omega)
    · intro _
      exact wait_nil_zero enq tick
  | succ k ih =>
    intro tick
    have h10 : pollInterval * (k + 1) ≠ 0 := by simp [pollInterval]
    have harith : pollInterval * (k + 1) - pollInterval = pollInterval * k := by
      simp [pollInterval]
      omega
    rw [wait_nil enq tick _ h10, harith]
    cases he : enq (tick + 1) with
    | nil =>
      rw [ih (tick + 1)]
      constructor
      · intro hall t h1 h2
        by_cases ht : t = tick + 1
        · rw [ht]
          exact he
        · exact hall t (by omega) (by omega)
      · intro hall t h1 h2
        exact hall t (by omega) (by omega)
    | cons r rest =>
      rw [wait_cons]
      constructor
      · intro hsome
        exact absurd hsome (by simp)
      · intro hall
        have h1 := hall (tick + 1) (by omega) (by omega)
        rw [he] at h1
        exact absurd h1 (by simp)

/-- C9: the response waiter returns the dequeued head immediately (with no
delay) whenever the queue is non-empty; when it is empty it polls at the
fixed 10 ms interval, decrementing the remaining budget by the interval
each poll; and with the default 1000 ms budget it fails with a timeout if
and only if the listener enqueues no line during any of the 100 poll
intervals of the budget. -/
theorem waiter_immediate_poll_and_timeout :
    (∀ (enq : Nat → List String) (tick : Nat) (r : String)
        (rest : List String) (maxWait : Nat),
      waitForResponse enq tick (r :: rest) maxWait = some (r, rest)) ∧
    (∀ (enq : Nat → List String) (tick maxWait : Nat), maxWait ≠ 0 →
      waitForResponse enq tick [] maxWait =
        waitForResponse enq (tick + 1) (enq (tick + 1))
          (maxWait - pollInterval)) ∧
    (∀ enq : Nat → List String,
      waitForResponse enq 0 [] defaultTimeout = none ↔
        ∀ t, 1 ≤ t → t ≤ 100 → enq t = []) := by
  refine ⟨wait_cons, wait_nil, ?_⟩
  intro enq
  have h : defaultTimeout = pollInterval * 100 := rfl
  rw [h, wait_timeout_iff enq 100 0]
  constructor
  · intro hall t h1 h2
    exact hall t (by omega) (by omega)
  · intro hall t h1 h2
    exact hall t (by omega) (by omega)

/-- Witness for C9: a queued line is returned at once; a schedule that
never enqueues anything times out at the default budget. -/
theorem waiter_immediate_poll_and_timeout_witness :
    waitForResponse (fun _ => []) 0 ["line"] 1000 = some ("line", []) ∧
    waitForResponse (fun _ => []) 0 [] 1000 = none := by
  constructor
  · exact waiter_immediate_poll_and_timeout.1 (fun _ => []) 0 "line" [] 1000
  · exact (waiter_immediate_poll_and_timeout.2.2 (fun _ => [])).mpr
      (fun t h1 h2 => rfl)

/-- Witness for C2: an INITIALIZE whose first exchange fails with a bogus
echo still triggers the sync exchange, and the final result is ERROR. -/
theorem executor_dispatch_and_unconditional_sync_witness :
    (executeCommand
        { port := true, state := { shutterOpen := false, intensity := 0 },
          pending := ["bad", "77020"], sent := [] } .INITIALIZE).1 =
      .ok Response.ERROR ∧
    (executeCommand
        { port := true, state := { shutterOpen := false, intensity := 0 },
          pending := ["bad", "77020"], sent := [] } .INITIALIZE).2.sent =
      ["77025 0", "77020 0 0"] := by
  have h := executor_dispatch_and_unconditional_sync.2.2.2.2.2
    { port := true, state := { shutterOpen := false, intensity := 0 },
      pending := ["bad", "77020"], sent := [] } "bad" "77020" [] rfl rfl rfl
    (by decide)
  simpa using h

end TLC
